import Mathlib

/-!
Shallow embedding of the apartment-management program
(src/apartment_login/main.go) and proofs about its record store, its
derived-field reconciliation, and its bulk CSV/Excel transfer logic.

The SQLite tables are modelled as Lean lists in rowid (insertion) order.
An `INSERT OR REPLACE` on the apartments table deletes any row with the
conflicting primary key and appends the fresh row, which is how SQLite
executes it; enumeration via `LIMIT 1 OFFSET ?` is positional lookup, with
a negative offset treated as zero, as SQLite specifies for OFFSET.
-/

/-- Mirrors the Go struct `Apartment` (main.go lines 36-41). -/
structure Apartment where
  id : String
  owner : String
  resident : String
  sameFlag : Bool
deriving DecidableEq

/-- Mirrors the Go struct `User` (main.go lines 29-33). -/
structure User where
  id : Nat
  username : String
  password : String
deriving DecidableEq

/-- The apartments table, in rowid order. -/
abbrev Store := List Apartment

/-- Mirrors `updateSameFlag` (main.go lines 578-580): recompute the derived
flag from the current owner and resident fields. -/
def updateSameFlag (apt : Apartment) : Apartment :=
  ⟨apt.id, apt.owner, apt.resident, apt.owner != "" && apt.owner == apt.resident⟩

/-- Effect of `INSERT OR REPLACE INTO apartments ...` on the table: the row
with a conflicting primary key (if any) is deleted and the new row is
inserted with a fresh rowid, i.e. at the end of enumeration order. -/
def upsertRow (apt : Apartment) (s : Store) : Store :=
  s.filter (fun a => a.id != apt.id) ++ [apt]

/-- Mirrors `saveApartment` (main.go lines 542-551): recompute the derived
flag, then run the `INSERT OR REPLACE`. The Go function returns an error
only on an underlying storage failure, which the model does not exhibit. -/
def saveApartment (apt : Apartment) (s : Store) : Store :=
  upsertRow (updateSameFlag apt) s

/-- Mirrors `getApartmentCount` (main.go lines 558-562). -/
def getApartmentCount (s : Store) : Nat := s.length

/-- Mirrors `getApartmentByIndex` (main.go lines 564-575): the query
`SELECT ... LIMIT 1 OFFSET ?` returns the row at the given position, SQLite
treating a negative OFFSET as zero (hence `Int.toNat`); when no row is
returned, `Scan` fails, its error is discarded, and the zero-valued
`Apartment` (with `same_flag` read as 0, i.e. `false`) is returned. -/
def getApartmentByIndex (s : Store) (index : Int) : Apartment :=
  match s[index.toNat]? with
  | some apt => apt
  | none => ⟨"", "", "", false⟩

/-- Mirrors `getUserCount` (main.go lines 304-308). -/
def getUserCount (users : List User) : Nat := users.length

/-- Mirrors `getUserByIndex` (main.go lines 310-315), with the same OFFSET
semantics and zero-value fallback as `getApartmentByIndex`. -/
def getUserByIndex (users : List User) (index : Int) : User :=
  match users[index.toNat]? with
  | some u => u
  | none => ⟨0, "", ""⟩

/-- Mirrors `Authenticate` (main.go lines 88-96): `QueryRow` fetches the
password of the first row whose username matches; if no row exists the
`Scan` error is logged and `false` is returned, otherwise the submitted
password is compared verbatim to the stored one. -/
def Authenticate (users : List User) (username password : String) : Bool :=
  match users.find? (fun u => u.username == username) with
  | none => false
  | some u => password == u.password

/-- Mirrors the save-button handler of `ShowApartmentManager`
(main.go lines 394-424): reject an empty ID before any persistence; when
the checkbox is on, force resident := owner; otherwise coerce an empty
resident to the sentinel; recompute the flag; persist via `saveApartment`. -/
def saveHandler (idText ownerText residentText : String) (checked : Bool)
    (s : Store) : Except String Store :=
  if idText == "" then
    Except.error "apartment ID is required"
  else
    let resident :=
      if checked then ownerText
      else if residentText == "" then "Vacant" else residentText
    Except.ok (saveApartment ⟨idText, ownerText, resident, false⟩ s)

/-- Store resulting from the save-button handler: on a validation error no
persistence happens and the store is unchanged. -/
def saveHandlerStore (idText ownerText residentText : String) (checked : Bool)
    (s : Store) : Store :=
  match saveHandler idText ownerText residentText checked s with
  | Except.ok s2 => s2
  | Except.error _ => s

/-- Derived-field reconciliation as the source performs it inline: the
checkbox logic of the save handler (main.go lines 404-413) followed by
`updateSameFlag` (lines 578-580). Returns the effective resident name and
the recomputed owner-is-resident flag. -/
def reconcile (ownerName residentName : String) (toggle : Bool) :
    String × Bool :=
  let effResident :=
    if toggle then ownerName
    else if residentName == "" then "Vacant" else residentName
  (effResident, ownerName != "" && ownerName == effResident)

/-- Outcome of a bulk import: a committed transaction with the new durable
table, a returned error with the table untouched, or a runtime fault
(out-of-range row indexing) with the open transaction never committed and
hence the durable table untouched. -/
inductive ImportOutcome where
  | ok (s : Store)
  | err (s : Store)
  | fault (s : Store)
deriving DecidableEq

/-- Durable table after the import, whatever the outcome. -/
def ImportOutcome.store : ImportOutcome → Store
  | ImportOutcome.ok s => s
  | ImportOutcome.err s => s
  | ImportOutcome.fault s => s

/-- True exactly on a committed import. -/
def ImportOutcome.isOk : ImportOutcome → Bool
  | ImportOutcome.ok _ => true
  | _ => false

/-- True exactly on an import that returned an error value. -/
def ImportOutcome.isErr : ImportOutcome → Bool
  | ImportOutcome.err _ => true
  | _ => false

/-- Field-count validation performed by Go encoding/csv with the default
`FieldsPerRecord = 0`: the first record fixes the expected width and
`ReadAll` fails with `ErrFieldCount` on any record of a different width. -/
def fieldsConsistent : List (List String) → Bool
  | [] => true
  | r :: rest => rest.all (fun x => x.length == r.length)

/-- Transaction body shared by `importFromCSV` and `importFromExcel`
(main.go lines 620-643 and 699-722): for each data row, build the record
from columns 0-2 — blind indexing, so a row of fewer than 3 columns is a
runtime fault (`none`) — coerce an empty resident to the sentinel, recompute
the flag, and run the `INSERT OR REPLACE` inside the transaction. -/
def importRows : List (List String) → Store → Option Store
  | [], s => some s
  | record :: rest, s =>
    if h : 3 ≤ record.length then
      let apt : Apartment :=
        ⟨record.get ⟨0, by omega⟩, record.get ⟨1, by omega⟩,
          record.get ⟨2, by omega⟩, false⟩
      let apt2 := if apt.resident == "" then ⟨apt.id, apt.owner, "Vacant", false⟩ else apt
      importRows rest (upsertRow (updateSameFlag apt2) s)
    else
      none

/-- Mirrors `importFromCSV` (main.go lines 602-645) at the parsed-record
level: `ReadAll` first validates field-count consistency and returns an
error before the transaction even begins; then the transaction skips row 0
(the header) and upserts every remaining row; a short row faults with the
transaction never committed. -/
def importFromCSV (records : List (List String)) (s : Store) : ImportOutcome :=
  if fieldsConsistent records then
    match records with
    | [] => ImportOutcome.ok s
    | _ :: rest =>
      match importRows rest s with
      | some s2 => ImportOutcome.ok s2
      | none => ImportOutcome.fault s
  else
    ImportOutcome.err s

/-- Mirrors `importFromExcel` (main.go lines 682-724) at the row level:
identical transaction body, but `GetRows` performs no field-count
validation, so a short row always faults. -/
def importFromExcel (rows : List (List String)) (s : Store) : ImportOutcome :=
  match rows with
  | [] => ImportOutcome.ok s
  | _ :: rest =>
    match importRows rest s with
    | some s2 => ImportOutcome.ok s2
    | none => ImportOutcome.fault s

/-- One exported CSV data row (main.go line 674): the `%t` formatting of the
flag yields the strings true and false. -/
def rowOf (a : Apartment) : List String :=
  [a.id, a.owner, a.resident, if a.sameFlag then "true" else "false"]

/-- Mirrors `exportToCSV` (main.go lines 647-680): header row, then every
stored record in enumeration order. -/
def exportToCSV (s : Store) : List (List String) :=
  ["ID", "Owner", "Resident", "Same"] :: s.map rowOf

/-- Per-row derived-flag invariant: the persisted flag equals the value
recomputed from the persisted owner and resident. -/
def flagOk (a : Apartment) : Bool :=
  a.sameFlag == (a.owner != "" && a.owner == a.resident)

/-- Table-wide derived-flag invariant. -/
def storeInv (s : Store) : Bool := s.all flagOk

/-- Projection of a table to its (unitId, ownerName, residentName) triples,
in enumeration order. -/
def occTriples (s : Store) : List (String × String × String) :=
  s.map (fun a => (a.id, a.owner, a.resident))

/-! Helper lemmas about the store and the import loop. -/

theorem mem_upsertRow_self (apt : Apartment) (s : Store) : apt ∈ upsertRow apt s := by
  simp [upsertRow]

theorem upsertRow_idem (apt : Apartment) (s : Store) :
    upsertRow apt (upsertRow apt s) = upsertRow apt s := by
  simp [upsertRow, List.filter_append, List.filter_filter]

theorem flagOk_updateSameFlag (apt : Apartment) : flagOk (updateSameFlag apt) = true := by
  simp [flagOk, updateSameFlag]

theorem storeInv_upsertRow (apt : Apartment) (s : Store) (ha : flagOk apt = true)
    (hs : storeInv s = true) : storeInv (upsertRow apt s) = true := by
  simp only [storeInv, upsertRow, List.all_append, List.all_cons, List.all_nil,
    Bool.and_true, Bool.and_eq_true] at hs ⊢
  refine ⟨?_, ha⟩
  rw [List.all_eq_true] at hs ⊢
  intro x hx
  exact hs x (List.mem_of_mem_filter hx)

theorem storeInv_importRows : ∀ (rows : List (List String)) (s s2 : Store),
    storeInv s = true → importRows rows s = some s2 → storeInv s2 = true
  | [], s, s2, hs, h => by
    simp only [importRows, Option.some.injEq] at h
    exact h ▸ hs
  | record :: rest, s, s2, hs, h => by
    rw [importRows] at h
    split at h
    · exact storeInv_importRows rest _ s2
        (storeInv_upsertRow _ _ (flagOk_updateSameFlag _) hs) h
    · exact absurd h (by simp)

theorem importRows_none : ∀ (rows : List (List String)) (s : Store),
    (∃ r ∈ rows, r.length < 3) → importRows rows s = none
  | [], _, h => by simp at h
  | record :: rest, s, h => by
    rw [importRows]
    split
    · rename_i hlen
      refine importRows_none rest _ ?_
      rcases h with ⟨r, hr, hlt⟩
      rcases List.mem_cons.mp hr with rfl | hmem
      · omega
      · exact ⟨r, hmem, hlt⟩
    · rfl

theorem fieldsConsistent_export (s : Store) :
    fieldsConsistent (exportToCSV s) = true := by
  simp [fieldsConsistent, exportToCSV, List.all_map, Function.comp, rowOf]

theorem filter_ne_id_of_not_mem (t : Store) (i : String)
    (h : ∀ b ∈ t, b.id ≠ i) : t.filter (fun a => a.id != i) = t := by
  rw [List.filter_eq_self]
  intro a ha
  simpa using h a ha

theorem updateSameFlag_of_flagOk (a : Apartment) (h : flagOk a = true) :
    updateSameFlag ⟨a.id, a.owner, a.resident, false⟩ = a := by
  rw [flagOk, beq_iff_eq] at h
  cases a
  simp only [updateSameFlag] at h ⊢
  rw [← h]

theorem importRows_rowOf_step (a : Apartment) (rows : List (List String)) (t : Store)
    (hres : a.resident ≠ "") (hflag : flagOk a = true) :
    importRows (rowOf a :: rows) t = importRows rows (upsertRow a t) := by
  rw [importRows]
  have hlen : 3 ≤ (rowOf a).length := by simp [rowOf]
  rw [dif_pos hlen]
  simp only [rowOf, List.get]
  rw [if_neg (by simpa using hres), updateSameFlag_of_flagOk a hflag]

theorem importRows_export : ∀ (s t : Store),
    (∀ a ∈ s, a.resident ≠ "") →
    (∀ a ∈ s, flagOk a = true) →
    (∀ a ∈ s, ∀ b ∈ t, b.id ≠ a.id) →
    (s.map (fun a => a.id)).Nodup →
    importRows (s.map rowOf) t = some (t ++ s)
  | [], t, _, _, _, _ => by simp [importRows]
  | a :: s, t, hres, hflag, hdisj, hnd => by
    rw [List.map_cons,
      importRows_rowOf_step a _ t (hres a (List.mem_cons_self a s))
        (hflag a (List.mem_cons_self a s))]
    have hupsert : upsertRow a t = t ++ [a] := by
      rw [upsertRow,
        filter_ne_id_of_not_mem t a.id (fun b hb => hdisj a (List.mem_cons_self a s) b hb)]
    rw [hupsert]
    rw [List.map_cons, List.nodup_cons] at hnd
    have hstep := importRows_export s (t ++ [a])
      (fun x hx => hres x (List.mem_cons_of_mem a hx))
      (fun x hx => hflag x (List.mem_cons_of_mem a hx))
      (fun x hx b hb => by
        rcases List.mem_append.mp hb with hbt | hba
        · exact hdisj x (List.mem_cons_of_mem a hx) b hbt
        · rcases List.mem_singleton.mp hba with rfl
          intro heq
          exact hnd.1 (heq ▸ List.mem_map_of_mem (fun a => a.id) hx))
      hnd.2
    rw [hstep]
    simp

/-! Claim theorems. -/

/-- Claim C1 (amended): importing a CSV file containing a malformed data row
(fewer than 3 columns) never commits: the durable store is exactly the
pre-import store, so none of the rows before the malformed one persist.
The import never succeeds, but it does not always report an error value: when
the malformed row width differs from the first row, the CSV reader reports
a field-count error before any write; when the first row itself is that
short, the blind column indexing faults with the transaction uncommitted. -/
theorem C1_atomic_malformed (records : List (List String)) (s : Store)
    (h : ∃ r ∈ records.drop 1, r.length < 3) :
    (importFromCSV records s).store = s ∧ (importFromCSV records s).isOk = false := by
  unfold importFromCSV
  by_cases hfc : fieldsConsistent records = true
  · rw [if_pos hfc]
    match records with
    | [] => simp at h
    | r0 :: rest =>
      have hnone : importRows rest s = none := importRows_none rest s (by simpa using h)
      simp [hnone, ImportOutcome.store, ImportOutcome.isOk]
  · rw [if_neg hfc]
    exact ⟨rfl, rfl⟩

/-- Witness for C1 at a concrete malformed file and pre-import store. -/
theorem C1_witness :
    (importFromCSV [["ID", "Owner", "Resident", "Same"], ["U1", "Bob"]]
      [⟨"A7", "Ann", "Ann", true⟩]).store = [⟨"A7", "Ann", "Ann", true⟩] ∧
    (importFromCSV [["ID", "Owner", "Resident", "Same"], ["U1", "Bob"]]
      [⟨"A7", "Ann", "Ann", true⟩]).isOk = false :=
  C1_atomic_malformed _ _ (by decide)

/-- Counterexample to C1 as stated: a file whose header row is itself two
columns wide passes the CSV field-count check, and the short data row then
faults on the blind index `record[2]` instead of reporting an error. -/
theorem C1_counterexample :
    importFromCSV [["ID", "Owner"], ["U1", "Bob"]] [] = ImportOutcome.fault [] ∧
    (importFromCSV [["ID", "Owner"], ["U1", "Bob"]] []).isErr = false := by
  decide

/-- Claim C2: every write path — the manual save handler, `saveApartment`,
a CSV import and an Excel import — preserves the invariant that each
persisted row's ownerIsResident flag equals
(ownerName not empty AND ownerName equals the stored residentName). -/
theorem C2_same_flag_invariant (apt : Apartment) (records exRows : List (List String))
    (idText ownerText residentText : String) (checked : Bool) (s : Store)
    (hs : storeInv s = true) :
    storeInv (saveApartment apt s) = true ∧
    storeInv (saveHandlerStore idText ownerText residentText checked s) = true ∧
    storeInv (importFromCSV records s).store = true ∧
    storeInv (importFromExcel exRows s).store = true := by
  have hsave : ∀ (b : Apartment) (t : Store), storeInv t = true →
      storeInv (saveApartment b t) = true := fun b t ht =>
    storeInv_upsertRow _ _ (flagOk_updateSameFlag b) ht
  refine ⟨hsave apt s hs, ?_, ?_, ?_⟩
  · by_cases hid : idText = ""
    · simp [saveHandlerStore, saveHandler, hid, hs]
    · simp only [saveHandlerStore, saveHandler, hid]
      rw [if_neg (by simpa using hid)]
      exact hsave _ _ hs
  · unfold importFromCSV
    by_cases hfc : fieldsConsistent records = true
    · rw [if_pos hfc]
      cases records with
      | nil => exact hs
      | cons r0 rest =>
        cases himp : importRows rest s with
        | none => simp [himp, ImportOutcome.store, hs]
        | some s2 =>
          simp only [himp, ImportOutcome.store]
          exact storeInv_importRows rest s s2 hs himp
    · rw [if_neg hfc]
      exact hs
  · unfold importFromExcel
    cases exRows with
    | nil => exact hs
    | cons r0 rest =>
      cases himp : importRows rest s with
      | none => simp [himp, ImportOutcome.store, hs]
      | some s2 =>
        simp only [himp, ImportOutcome.store]
        exact storeInv_importRows rest s s2 hs himp

/-- Witness for C2 at concrete inputs across all four write paths. -/
theorem C2_witness :
    storeInv (saveApartment ⟨"U1", "Bob", "Alice", true⟩ []) = true ∧
    storeInv (saveHandlerStore "U2" "Carol" "" false []) = true ∧
    storeInv (importFromCSV [["ID", "Owner", "Resident", "Same"],
      ["U3", "Dan", "Dan", "x"]] []).store = true ∧
    storeInv (importFromExcel [["ID", "Owner", "Resident", "Same"],
      ["U4", "Eve", "", "y"]] []).store = true :=
  C2_same_flag_invariant ⟨"U1", "Bob", "Alice", true⟩ _ _ "U2" "Carol" "" false []
    (by decide)

/-- Claim C3: with the toggle off and an empty resident, reconciliation
yields the sentinel resident Vacant, and the flag is true exactly when the
owner name is the non-empty string Vacant. -/
theorem C3_reconcile_vacant_off (ownerName : String) :
    reconcile ownerName "" false =
      ("Vacant", ownerName == "Vacant" && ownerName != "") := by
  simp [reconcile, Bool.and_comm]

/-- Claim C4: with the toggle on and a non-empty owner, reconciliation
forces the resident to the owner and the flag to true, whatever resident
the caller supplied. -/
theorem C4_reconcile_toggle_on (ownerName residentName : String)
    (h : ownerName ≠ "") :
    reconcile ownerName residentName true = (ownerName, true) := by
  simp [reconcile, h]

/-- Witness for C4 at a concrete non-empty owner. -/
theorem C4_witness : reconcile "Bob" "Alice" true = ("Bob", true) :=
  C4_reconcile_toggle_on "Bob" "Alice" (by decide)

/-- Claim C5: with the toggle on and an empty owner, reconciliation stores
the empty resident (not the Vacant sentinel) and overrides the requested
toggle, deriving the flag false from the final field values. -/
theorem C5_empty_owner_override (residentName : String) :
    reconcile "" residentName true = ("", false) := by
  simp [reconcile]

/-- Claim C6 (amended): for every store whose rows have pairwise-distinct
unit ids, satisfy the derived-flag invariant, and carry a non-empty
resident, exporting to CSV and importing the result into an empty store
commits and reproduces the store exactly — in particular the same set of
(unitId, ownerName, residentName) triples, with every flag re-derived to
its original value. The restriction to non-empty residents is forced by
the counterexample: a stored empty resident (reachable via the toggle-on,
empty-owner save) is coerced to the sentinel on re-import. -/
theorem C6_roundtrip (s : Store)
    (hu : (s.map (fun a => a.id)).Nodup)
    (hinv : storeInv s = true)
    (hres : ∀ a ∈ s, a.resident ≠ "") :
    importFromCSV (exportToCSV s) [] = ImportOutcome.ok s := by
  unfold importFromCSV
  rw [if_pos (fieldsConsistent_export s)]
  have hflag : ∀ a ∈ s, flagOk a = true := by
    rw [storeInv, List.all_eq_true] at hinv
    exact hinv
  have himp : importRows (s.map rowOf) [] = some ([] ++ s) :=
    importRows_export s [] hres hflag (fun x _ b hb => absurd hb (List.not_mem_nil b)) hu
  simp only [exportToCSV, himp, List.nil_append]

/-- Witness for C6 at the concrete two-row store from the specification
example. -/
theorem C6_witness :
    importFromCSV (exportToCSV [⟨"U1", "Bob", "Bob", true⟩,
      ⟨"U2", "Carol", "Vacant", false⟩]) [] =
      ImportOutcome.ok [⟨"U1", "Bob", "Bob", true⟩, ⟨"U2", "Carol", "Vacant", false⟩] :=
  C6_roundtrip _ (by decide) (by decide) (by decide)

/-- Counterexample to C6 as stated: the store holding the single row
(U1, owner empty, resident empty) — reachable through the save handler with
the toggle on and an empty owner — does not round-trip: re-import coerces
the empty resident to the sentinel, changing the triple. -/
theorem C6_counterexample :
    saveHandler "U1" "" "Alice" true [] = Except.ok [⟨"U1", "", "", false⟩] ∧
    importFromCSV (exportToCSV [⟨"U1", "", "", false⟩]) [] =
      ImportOutcome.ok [⟨"U1", "", "Vacant", false⟩] ∧
    occTriples [⟨"U1", "", "", false⟩] ≠ occTriples [⟨"U1", "", "Vacant", false⟩] := by
  refine ⟨rfl, by decide, by decide⟩

/-- Claim C7: the store upsert is idempotent — saving the same record twice
leaves the table exactly as saving it once — and it replaces rather than
rejects: after the save the table holds exactly one row with the record's
unit id, carrying the freshly recomputed fields, with no possibility of an
already-exists failure. -/
theorem C7_upsert_idempotent (r : Apartment) (s : Store) :
    saveApartment r (saveApartment r s) = saveApartment r s ∧
    (saveApartment r s).filter (fun a => a.id == r.id) = [updateSameFlag r] := by
  refine ⟨upsertRow_idem _ _, ?_⟩
  simp [saveApartment, upsertRow, List.filter_append, List.filter_filter, updateSameFlag]

/-- Claim C8: against a credential table with unique usernames (the schema
declares username UNIQUE), authentication succeeds exactly when a row with
that username and that password exists; every mismatch returns false, and
the lookup failure is absorbed rather than propagated. -/
theorem C8_authenticate_iff : ∀ (users : List User) (username password : String),
    (users.map (fun u => u.username)).Nodup →
    (Authenticate users username password = true ↔
      ∃ u, u ∈ users ∧ u.username = username ∧ u.password = password)
  | [], username, password, _ => by
    simp [Authenticate]
  | u :: us, username, password, hnd => by
    rw [List.map_cons, List.nodup_cons] at hnd
    by_cases hu : u.username = username
    · constructor
      · intro h
        rw [Authenticate, List.find?_cons_of_pos _ (by simpa using hu)] at h
        exact ⟨u, List.mem_cons_self u us, hu, (beq_iff_eq.mp h).symm⟩
      · rintro ⟨v, hv, hvname, hvpass⟩
        rw [Authenticate, List.find?_cons_of_pos _ (by simpa using hu)]
        rcases List.mem_cons.mp hv with rfl | hvmem
        · simp [hvpass]
        · refine absurd ?_ hnd.1
          rw [hu, ← hvname]
          exact List.mem_map_of_mem (fun w => w.username) hvmem
    · rw [Authenticate, List.find?_cons_of_neg _ (by simpa using hu)]
      rw [← Authenticate]
      rw [C8_authenticate_iff us username password hnd.2]
      constructor
      · rintro ⟨v, hv, hrest⟩
        exact ⟨v, List.mem_cons_of_mem u hv, hrest⟩
      · rintro ⟨v, hv, hvname, hvpass⟩
        rcases List.mem_cons.mp hv with rfl | hvmem
        · exact absurd hvname hu
        · exact ⟨v, hvmem, hvname, hvpass⟩

/-- Witness for C8 at the concrete credential of the specification. -/
theorem C8_witness :
    Authenticate [⟨1, "alice", "secret1"⟩] "alice" "secret1" = true :=
  (C8_authenticate_iff [⟨1, "alice", "secret1"⟩] "alice" "secret1" (by decide)).mpr
    ⟨⟨1, "alice", "secret1"⟩, by decide, rfl, rfl⟩

/-- Claim C9 (amended): an offset at or past the end of the collection makes
both positional lookups return the zero-valued record, with no error
surfaced. A negative offset, however, is not out of range in effect: SQLite
clamps it to zero, as the counterexample shows on a non-empty table. -/
theorem C9_zero_value (occ : Store) (users : List User) (i : Int)
    (h1 : (occ.length : Int) ≤ i) (h2 : ((users.length : Nat) : Int) ≤ i) :
    getApartmentByIndex occ i = ⟨"", "", "", false⟩ ∧
    getUserByIndex users i = ⟨0, "", ""⟩ := by
  have hocc : occ.length ≤ i.toNat := by omega
  have husers : users.length ≤ i.toNat := by omega
  unfold getApartmentByIndex getUserByIndex
  rw [List.getElem?_eq_none hocc, List.getElem?_eq_none husers]
  exact ⟨rfl, rfl⟩

/-- Witness for C9 at offset 0 on empty collections. -/
theorem C9_witness :
    getApartmentByIndex [] 0 = ⟨"", "", "", false⟩ ∧
    getUserByIndex [] 0 = ⟨0, "", ""⟩ :=
  C9_zero_value [] [] 0 (by decide) (by decide)

/-- Counterexample to C9 as stated: offset -1 on a one-row table returns
that row, not the zero-valued record, because SQLite treats a negative
OFFSET as zero. -/
theorem C9_counterexample :
    getApartmentByIndex [⟨"U1", "Bob", "Bob", true⟩] (-1) = ⟨"U1", "Bob", "Bob", true⟩ ∧
    (⟨"U1", "Bob", "Bob", true⟩ : Apartment) ≠ ⟨"", "", "", false⟩ := by
  decide

/-- Claim C10: a bulk-import row whose first column is empty (with at least
3 columns) is accepted — the import commits and the table then holds a row
with an empty unit id — while the manual save handler rejects an empty
apartment ID with a validation error before touching the store. -/
theorem C10_import_skips_id_validation (s : Store) (owner resident : String)
    (checked : Bool) :
    (∃ s2, importFromCSV [["ID", "Owner", "Resident"], ["", owner, resident]] s =
        ImportOutcome.ok s2 ∧ ∃ a, a ∈ s2 ∧ a.id = "") ∧
    saveHandler "" owner resident checked s =
      Except.error "apartment ID is required" := by
  constructor
  · have hfc : fieldsConsistent [["ID", "Owner", "Resident"], ["", owner, resident]] = true := by
      simp [fieldsConsistent]
    unfold importFromCSV
    rw [if_pos hfc]
    by_cases hres : resident = ""
    · subst hres
      refine ⟨upsertRow (updateSameFlag ⟨"", owner, "Vacant", false⟩) s, ?_, ?_⟩
      · simp [importRows, List.get]
      · exact ⟨updateSameFlag ⟨"", owner, "Vacant", false⟩, mem_upsertRow_self _ _, rfl⟩
    · refine ⟨upsertRow (updateSameFlag ⟨"", owner, resident, false⟩) s, ?_, ?_⟩
      · simp [importRows, List.get, hres]
      · exact ⟨updateSameFlag ⟨"", owner, resident, false⟩, mem_upsertRow_self _ _, rfl⟩
  · rfl
